import Mathlib

/-!
Shallow embedding of the MapMind backend (main.py): area geocoding, POI
extraction from Overpass data, category classification, GeoJSON synthesis,
aggregation, and the analyze-area request orchestration.  Machine floats are
modelled as rationals; Python dicts as insertion-ordered association lists;
fallible calls as Except values supplied as inputs.
-/

set_option autoImplicit false
set_option maxRecDepth 100000

namespace MapMind

/-! ## String helpers (Python semantics) -/

/-- Test whether `p` is a leading segment of `s` (character lists). -/
def leadsWith : List Char → List Char → Bool
  | [], _ => true
  | _ :: _, [] => false
  | a :: as, b :: bs => a == b && leadsWith as bs

/-- Python `p in s` substring containment on character lists. -/
def hasSubChars (p : List Char) : List Char → Bool
  | [] => leadsWith p []
  | c :: rest => leadsWith p (c :: rest) || hasSubChars p rest

/-- Python `p in s` substring containment on strings. -/
def strHasSub (s p : String) : Bool :=
  hasSubChars p.data s.data

/-- Python `s.lower()`; ASCII-only model (raw categories and patterns are ASCII). -/
def lowerStr (s : String) : String :=
  ⟨s.data.map Char.toLower⟩

/-- Index of the first occurrence of `c`, scanning from position `i`. -/
def findCharFrom (c : Char) : List Char → Int → Int
  | [], _ => -1
  | d :: rest, i => if d == c then i else findCharFrom c rest (i + 1)

/-- Python `s.find(c)`: first index of `c` in `s`, or -1. -/
def strFind (s : String) (c : Char) : Int :=
  findCharFrom c s.data 0

/-- Index of the last occurrence of `c`, scanning from position `i`. -/
def rfindCharFrom (c : Char) : List Char → Int → Int
  | [], _ => -1
  | d :: rest, i =>
    let r := rfindCharFrom c rest (i + 1)
    if r == -1 then (if d == c then i else -1) else r

/-- Python `s.rfind(c)`: last index of `c` in `s`, or -1. -/
def strRfind (s : String) (c : Char) : Int :=
  rfindCharFrom c s.data 0

/-- Python slice `s[a:b]` for nonnegative bounds. -/
def pySlice (s : String) (a b : Int) : String :=
  ⟨(s.data.take b.toNat).drop a.toNat⟩

/-- Opening brace character. -/
def lbraceChar : Char := Char.ofNat 123

/-- Closing brace character. -/
def rbraceChar : Char := Char.ofNat 125

/-- Double-quote character. -/
def dquoteChar : Char := Char.ofNat 34

/-- Backslash character. -/
def bslashChar : Char := Char.ofNat 92

/-! ## Python truthiness for optional floats -/

/-- Python truthiness of a possibly missing float: None and 0.0 are falsy. -/
def truthy : Option ℚ → Bool
  | none => false
  | some q => !(q == 0)

/-! ## JSON values and a model of json.loads -/

/-- JSON values as parsed by json.loads; numbers modelled as rationals. -/
inductive Json where
  | null : Json
  | bool (b : Bool) : Json
  | num (q : ℚ) : Json
  | str (s : String) : Json
  | arr (elems : List Json) : Json
  | obj (entries : List (String × Json)) : Json

/-- Lookup of a key in a JSON object, Python `d.get(k)`. -/
def jsonGet (j : Json) (k : String) : Option Json :=
  match j with
  | .obj entries => entries.lookup k
  | _ => none

/-- Python `k in d` for a JSON object. -/
def jsonHasKey (j : Json) (k : String) : Bool :=
  match j with
  | .obj entries => entries.any (fun e => e.1 == k)
  | _ => false

/-- Python `d.get(k, default)` on a parsed JSON object. -/
def jsonGetD (j : Json) (k : String) (d : Json) : Json :=
  match jsonGet j k with
  | some v => v
  | none => d

/-- JSON whitespace characters. -/
def isJsonWs (c : Char) : Bool :=
  c == ' ' || c == '\t' || c == '\n' || c == '\r'

/-- Skip leading JSON whitespace. -/
def skipWs : List Char → List Char
  | [] => []
  | c :: rest => if isJsonWs c then skipWs rest else c :: rest

/-- Decimal digit test. -/
def isDigitChar (c : Char) : Bool :=
  '0' ≤ c && c ≤ '9'

/-- Take a maximal run of decimal digits, returning them and the rest. -/
def takeDigits : List Char → List Char × List Char
  | [] => ([], [])
  | c :: rest =>
    if isDigitChar c then
      let (ds, r) := takeDigits rest
      (c :: ds, r)
    else ([], c :: rest)

/-- Numeric value of a digit run. -/
def digitsToNat : List Char → ℕ
  | [] => 0
  | c :: rest => digitsToNat rest + (c.toNat - 48) * 10 ^ rest.length

/-- Hex digit value, if any. -/
def hexVal (c : Char) : Option ℕ :=
  if '0' ≤ c && c ≤ '9' then some (c.toNat - 48)
  else if 'a' ≤ c && c ≤ 'f' then some (c.toNat - 87)
  else if 'A' ≤ c && c ≤ 'F' then some (c.toNat - 55)
  else none

/-- Parse the body of a JSON string literal after the opening quote; basic
escapes and \uXXXX (no surrogate pairing, which the claims never exercise). -/
def parseStringBody : ℕ → List Char → Option (List Char × List Char)
  | 0, _ => none
  | _ + 1, [] => none
  | fuel + 1, c :: rest =>
    if c == dquoteChar then some ([], rest)
    else if c == bslashChar then
      match rest with
      | [] => none
      | e :: rest2 =>
        let cont (ch : Char) (r : List Char) : Option (List Char × List Char) :=
          match parseStringBody fuel r with
          | some (cs, r2) => some (ch :: cs, r2)
          | none => none
        if e == dquoteChar then cont dquoteChar rest2
        else if e == bslashChar then cont bslashChar rest2
        else if e == '/' then cont '/' rest2
        else if e == 'b' then cont (Char.ofNat 8) rest2
        else if e == 'f' then cont (Char.ofNat 12) rest2
        else if e == 'n' then cont '\n' rest2
        else if e == 'r' then cont '\r' rest2
        else if e == 't' then cont '\t' rest2
        else if e == 'u' then
          match rest2 with
          | h1 :: h2 :: h3 :: h4 :: rest3 =>
            match hexVal h1, hexVal h2, hexVal h3, hexVal h4 with
            | some a, some b, some c3, some d =>
              cont (Char.ofNat (((a * 16 + b) * 16 + c3) * 16 + d)) rest3
            | _, _, _, _ => none
          | _ => none
        else none
    else
      match parseStringBody fuel rest with
      | some (cs, r2) => some (c :: cs, r2)
      | none => none

/-- Parse a JSON number per the JSON grammar (optional minus, integer part with
no leading zeros, optional fraction, optional exponent). -/
def parseNumber (s : List Char) : Option (ℚ × List Char) :=
  let (neg, s1) :=
    match s with
    | c :: rest => if c == '-' then (true, rest) else (false, s)
    | [] => (false, s)
  match s1 with
  | [] => none
  | c :: _ =>
    if !(isDigitChar c) then none
    else
      let (ints, s2) := takeDigits s1
      if ints.length > 1 && ints.headD '0' == '0' then none
      else
        let intVal : ℚ := (digitsToNat ints : ℚ)
        let (fracVal, s3) :=
          match s2 with
          | '.' :: rest =>
            let (fds, r) := takeDigits rest
            if fds.isEmpty then ((none : Option ℚ), s2)
            else (some ((digitsToNat fds : ℚ) / ((10 : ℚ) ^ fds.length)), r)
          | _ => (none, s2)
        match fracVal, s3 with
        | none, '.' :: _ => none
        | _, _ =>
          let base : ℚ := intVal + (fracVal.getD 0)
          let expRes : Option (ℤ × List Char) :=
            match s3 with
            | e :: rest =>
              if e == 'e' || e == 'E' then
                let (esign, rest2) :=
                  match rest with
                  | '+' :: r => ((1 : ℤ), r)
                  | '-' :: r => ((-1 : ℤ), r)
                  | _ => (1, rest)
                let (eds, r3) := takeDigits rest2
                if eds.isEmpty then none
                else some (esign * (digitsToNat eds : ℤ), r3)
              else some (0, s3)
            | [] => some (0, s3)
          match expRes with
          | none => none
          | some (ex, s4) =>
            let scaled : ℚ :=
              if 0 ≤ ex then base * ((10 : ℚ) ^ ex.toNat)
              else base / ((10 : ℚ) ^ (-ex).toNat)
            some ((if neg then -scaled else scaled), s4)

/-- Expect a literal keyword at the head of the input. -/
def expectLit (lit : List Char) (s : List Char) (v : Json) : Option (Json × List Char) :=
  if leadsWith lit s then some (v, s.drop lit.length) else none

mutual

/-- Parse one JSON value (fuel-bounded recursive descent). -/
def parseValue : ℕ → List Char → Option (Json × List Char)
  | 0, _ => none
  | fuel + 1, s =>
    match skipWs s with
    | [] => none
    | c :: rest =>
      if c == lbraceChar then
        match skipWs rest with
        | d :: rest2 =>
          if d == rbraceChar then some (.obj [], rest2)
          else parseMembers fuel (d :: rest2) []
        | [] => none
      else if c == '[' then
        match skipWs rest with
        | d :: rest2 =>
          if d == ']' then some (.arr [], rest2)
          else parseElems fuel (d :: rest2) []
        | [] => none
      else if c == dquoteChar then
        match parseStringBody (rest.length + 1) rest with
        | some (cs, r) => some (.str ⟨cs⟩, r)
        | none => none
      else if c == 't' then expectLit ['t', 'r', 'u', 'e'] (c :: rest) (.bool true)
      else if c == 'f' then expectLit ['f', 'a', 'l', 's', 'e'] (c :: rest) (.bool false)
      else if c == 'n' then expectLit ['n', 'u', 'l', 'l'] (c :: rest) .null
      else
        match parseNumber (c :: rest) with
        | some (q, r) => some (.num q, r)
        | none => none

/-- Parse the members of a JSON object after the opening brace. -/
def parseMembers : ℕ → List Char → List (String × Json) → Option (Json × List Char)
  | 0, _, _ => none
  | fuel + 1, s, acc =>
    match skipWs s with
    | c :: rest =>
      if c == dquoteChar then
        match parseStringBody (rest.length + 1) rest with
        | some (cs, r) =>
          (match skipWs r with
           | ':' :: r2 =>
             match parseValue fuel r2 with
             | some (v, r3) =>
               (match skipWs r3 with
                | ',' :: r4 => parseMembers fuel r4 (acc ++ [(⟨cs⟩, v)])
                | d :: r4 =>
                  if d == rbraceChar then some (.obj (acc ++ [(⟨cs⟩, v)]), r4)
                  else none
                | [] => none)
             | none => none
           | _ => none)
        | none => none
      else none
    | [] => none

/-- Parse the elements of a JSON array after the opening bracket. -/
def parseElems : ℕ → List Char → List Json → Option (Json × List Char)
  | 0, _, _ => none
  | fuel + 1, s, acc =>
    match parseValue fuel s with
    | some (v, r) =>
      (match skipWs r with
       | ',' :: r2 => parseElems fuel r2 (acc ++ [v])
       | ']' :: r2 => some (.arr (acc ++ [v]), r2)
       | _ => none)
    | none => none

end

/-- Model of Python json.loads: parse a complete JSON document, rejecting
trailing garbage; malformed input yields none (JSONDecodeError). -/
def jsonParse (s : String) : Option Json :=
  match parseValue (2 * s.data.length + 4) s.data with
  | some (v, rest) =>
    match skipWs rest with
    | [] => some v
    | _ => none
  | none => none

/-! ## Super-category table and classification (generate_pois_geojson, main.py 310-378) -/

/-- One super-category entry of the table in generate_pois_geojson. -/
structure SuperCat where
  name : String
  color : String
  display_name : String
  patterns : List String
deriving DecidableEq

/-- The super_categories table, in declaration order. -/
def superCategories : List SuperCat :=
  [⟨"healthcare", "#0088FE", "Healthcare",
    ["hospital", "healthcare", "doctors", "pharmacy", "blood_bank", "optometrist", "alternative"]⟩,
   ⟨"education", "#00C49F", "Education",
    ["school", "college", "university", "kindergarten", "training", "language_school", "education"]⟩,
   ⟨"shopping", "#FFBB28", "Shopping",
    ["shop", "supermarket", "mall", "market", "bakery", "convenience"]⟩,
   ⟨"food_drink", "#FF8042", "Food & Drink",
    ["restaurant", "cafe", "pub", "bar", "fast_food", "food_court", "ice_cream"]⟩,
   ⟨"transport", "#AF19FF", "Transport",
    ["bus", "train", "station", "taxi", "parking", "transport"]⟩,
   ⟨"financial", "#FF1919", "Financial",
    ["bank", "atm", "money", "financial", "insurance"]⟩,
   ⟨"leisure", "#17BECF", "Leisure",
    ["leisure", "park", "garden", "playground", "swimming", "sports", "pitch", "track"]⟩,
   ⟨"office", "#9467BD", "Office",
    ["office", "administrative", "government", "estate_agent", "tax", "telecommunication"]⟩,
   ⟨"community", "#D62728", "Community",
    ["community", "social", "public", "toilets", "drinking_water", "bench", "library"]⟩,
   ⟨"other", "#7F7F7F", "Other", []⟩]

/-- Whether a raw category matches a super-category: some pattern keyword is a
substring of the lowercased raw category. -/
def scMatches (category : String) (sc : SuperCat) : Bool :=
  sc.patterns.any (fun pattern => strHasSub (lowerStr category) pattern)

/-- Loop of main.py 372-378: default "other", first matching entry wins. -/
def classifyFrom (category : String) : List SuperCat → String
  | [] => "other"
  | sc :: rest => if scMatches category sc then sc.name else classifyFrom category rest

/-- Classification of a raw category into a super-category name. -/
def classify (category : String) : String :=
  classifyFrom category superCategories

/-- Spec reading of the classifier: the first super-category in declaration
order whose pattern set has a keyword contained in the lowercased raw
category; "other" when no declared pattern matches. -/
def classifySpec (category : String) : String :=
  match superCategories.find? (scMatches category) with
  | some sc => sc.name
  | none => "other"

/-- Lookup of a super-category entry by name, defaulting to the final
catch-all entry (used for the color and display name of a classified POI). -/
def scEntry (name : String) : SuperCat :=
  match superCategories.find? (fun sc => sc.name == name) with
  | some sc => sc
  | none => ⟨"other", "#7F7F7F", "Other", []⟩

/-! ## POI records and Overpass element processing (get_pois_overpass, main.py 26-148) -/

/-- A POI record as stored by get_pois_overpass: lat, lon, tags, element type.
Coordinates are optional so that Python None values and dict truthiness are
representable. -/
structure Poi where
  lat : Option ℚ
  lon : Option ℚ
  tags : List (String × String)
  type : String
deriving DecidableEq

/-- A raw Overpass element: type, own coordinates (nodes), centroid
coordinates (ways and relations), and tags. -/
structure OsmElement where
  type : String
  lat : Option ℚ
  lon : Option ℚ
  centerLat : Option ℚ
  centerLon : Option ℚ
  tags : List (String × String)
deriving DecidableEq

/-- Coordinate selection of main.py 100-104: nodes use their own point,
other elements use the reported center. -/
def elementCoords (e : OsmElement) : Option ℚ × Option ℚ :=
  if e.type == "node" then (e.lat, e.lon) else (e.centerLat, e.centerLon)

/-- Category derivation of main.py 108-124: first-match precedence over the
recognized tag keys; none when no key is present. -/
def deriveCategory (tags : List (String × String)) : Option String :=
  match tags.lookup "amenity" with
  | some v => some v
  | none =>
  match tags.lookup "shop" with
  | some v => some ("shop_" ++ v)
  | none =>
  match tags.lookup "leisure" with
  | some v => some ("leisure_" ++ v)
  | none =>
  match tags.lookup "healthcare" with
  | some v => some ("healthcare_" ++ v)
  | none =>
  match tags.lookup "building" with
  | some v => some ("building_" ++ v)
  | none =>
  match tags.lookup "office" with
  | some v => some ("office_" ++ v)
  | none =>
  match tags.lookup "public_transport" with
  | some _ => some "public_transport"
  | none =>
  match tags.lookup "railway" with
  | some v => some ("railway_" ++ v)
  | none => none

/-- Outcome of processing one element (main.py 100-135): the category it is
filed under and the stored record, or none when the element is dropped
(falsy coordinates, no recognized tag key, or a falsy category string). -/
def elementContribution (e : OsmElement) : Option (String × Poi) :=
  let lat := (elementCoords e).1
  let lon := (elementCoords e).2
  if truthy lat && truthy lon then
    match deriveCategory e.tags with
    | some category =>
      if category == "" then none
      else some (category, ⟨lat, lon, e.tags, e.type⟩)
    | none => none
  else none

/-- Categorized POIs: insertion-ordered mapping from raw category to records. -/
abbrev CategorizedPois := List (String × List Poi)

/-- Python `if k not in d: d[k] = []` followed by `d[k].append(v)` on an
insertion-ordered dict. -/
def dictAppend (d : CategorizedPois) (k : String) (v : Poi) : CategorizedPois :=
  match d with
  | [] => [(k, [v])]
  | (k2, vs) :: rest =>
    if k2 == k then (k2, vs ++ [v]) :: rest else (k2, vs) :: dictAppend rest k v

/-- Loop of main.py 96-135 building all_pois from the Overpass elements. -/
def processElements (elems : List OsmElement) : CategorizedPois :=
  elems.foldl
    (fun d e =>
      match elementContribution e with
      | some (c, p) => dictAppend d c p
      | none => d)
    []

/-- One geocoder hit as returned by Nominatim: coordinate, optional raw
boundingbox list (as a 4-field record in list order), display name. -/
structure BboxRaw where
  e0 : ℚ
  e1 : ℚ
  e2 : ℚ
  e3 : ℚ
deriving DecidableEq

/-- A geocoder hit. -/
structure GeocodeHit where
  lat : ℚ
  lon : ℚ
  boundingbox : Option BboxRaw
  display_name : String
deriving DecidableEq

/-- Bounding-box computation of main.py 48-59: reorder the reported raw list
by indices [2, 0, 3, 1], or synthesize a fixed 0.009-degree square. -/
def computeBbox (hit : GeocodeHit) : List ℚ :=
  match hit.boundingbox with
  | some raw => [raw.e2, raw.e0, raw.e3, raw.e1]
  | none =>
    let radius_deg : ℚ := 9 / 1000
    [hit.lon - radius_deg, hit.lat - radius_deg, hit.lon + radius_deg, hit.lat + radius_deg]

/-- Geocode summary included in the result (main.py 142-146). -/
structure GeocodeInfo where
  lat : ℚ
  lon : ℚ
  display_name : String
deriving DecidableEq

/-- Result of get_pois_overpass: an error dict or the pois/geocode/bbox dict. -/
inductive PoisResult where
  | err (msg : String)
  | ok (pois : CategorizedPois) (geocode : GeocodeInfo) (bbox : List ℚ)

/-- Embedding of get_pois_overpass (main.py 26-148).  The outcomes of the two
network calls are inputs: the geocoding call (transport failure or parsed hit
list) and the Overpass call (exception or parsed element list).  A failed
Overpass call is caught and only printed: all_pois stays empty and the
function still returns an ok dict. -/
def get_pois_overpass (gResp : Except String (List GeocodeHit))
    (oResp : Except String (List OsmElement)) : PoisResult :=
  match gResp with
  | .error e => .err ("Geocoding failed: " ++ e)
  | .ok [] => .err "Could not geocode area/city"
  | .ok (hit :: _) =>
    let bbox := computeBbox hit
    let all_pois :=
      match oResp with
      | .ok elems => processElements elems
      | .error _ => []
    .ok all_pois ⟨hit.lat, hit.lon, hit.display_name⟩ bbox

/-! ## Deterministic GeoJSON construction (create_basic_geojson, main.py 244-301) -/

/-- A feature of the deterministic boundary-plus-POIs document. -/
inductive BasicFeature where
  | boundary (coordinates : List (List (List ℚ))) (name : String) (fillColor : String)
      (fillOpacity : ℚ) (strokeColor : String) (strokeWidth : ℚ)
  | poi (coordinates : List (Option ℚ)) (category : String) (name : String) (color : String)
deriving DecidableEq

/-- A feature collection document. -/
structure FeatureColl (α : Type) where
  ftype : String
  features : List α
deriving DecidableEq

/-- The fallback color palette of create_basic_geojson. -/
def basicColors : List String :=
  ["#0088FE", "#00C49F", "#FFBB28", "#FF8042", "#AF19FF", "#FF1919"]

/-- Inner loop body of main.py 285-299: append one poi feature when both
coordinates are truthy. -/
def basicPoiStep (category color : String) (fs : List BasicFeature) (poi : Poi) :
    List BasicFeature :=
  if truthy poi.lat && truthy poi.lon then
    fs ++ [.poi [poi.lon, poi.lat] category ((poi.tags.lookup "name").getD category) color]
  else fs

/-- Outer loop body of main.py 281-299: pick the cycling palette color for
one raw category, process its POIs, advance the color index. -/
def basicCatStep (acc : List BasicFeature × ℕ) (cp : String × List Poi) :
    List BasicFeature × ℕ :=
  let color := basicColors.getD (acc.2 % basicColors.length) ""
  (cp.2.foldl (basicPoiStep cp.1 color) acc.1, acc.2 + 1)

/-- Embedding of create_basic_geojson (main.py 244-301).  The bbox is the
4-element list [west, south, east, north]; out-of-range indexing (impossible
for boxes built by computeBbox) is modelled as 0. -/
def create_basic_geojson (bbox : List ℚ) (area_name city_name : String)
    (pois_data : CategorizedPois) : FeatureColl BasicFeature :=
  let b0 := bbox.getD 0 0
  let b1 := bbox.getD 1 0
  let b2 := bbox.getD 2 0
  let b3 := bbox.getD 3 0
  let boundary_coords : List (List ℚ) := [[b0, b1], [b0, b3], [b2, b3], [b2, b1], [b0, b1]]
  let init : List BasicFeature :=
    [.boundary [boundary_coords] (area_name ++ ", " ++ city_name) "#0070f3" (2 / 10) "#0070f3" 2]
  ⟨"FeatureCollection", (pois_data.foldl basicCatStep (init, 0)).1⟩

/-! ## Enrichment-assisted GeoJSON synthesis (generate_complete_geojson, main.py 150-205) -/

/-- Output of generate_complete_geojson: either the parsed enrichment
document, accepted as-is, or the deterministic fallback document. -/
inductive GeoDoc where
  | llm (doc : Json)
  | basic (doc : FeatureColl BasicFeature)

/-- Validation of main.py 197: declared type is FeatureCollection and the
features key is present (a non-object parse also fails the request path,
through the surrounding exception handler). -/
def jsonIsFC (j : Json) : Bool :=
  (match jsonGet j "type" with
   | some (.str s) => s == "FeatureCollection"
   | _ => false) && jsonHasKey j "features"

/-- Embedding of generate_complete_geojson (main.py 150-205).  The outcome of
the enrichment call is an input: an exception or the response text.  Every
failure branch returns the create_basic_geojson document. -/
def generate_complete_geojson (area_name city_name : String) (pois_data : CategorizedPois)
    (bbox : List ℚ) (resp : Except String String) : GeoDoc :=
  match resp with
  | .error _ => .basic (create_basic_geojson bbox area_name city_name pois_data)
  | .ok text =>
    let json_start := strFind text lbraceChar
    let json_end := strRfind text rbraceChar + 1
    if json_start == -1 || json_end == -1 then
      .basic (create_basic_geojson bbox area_name city_name pois_data)
    else
      match jsonParse (pySlice text json_start json_end) with
      | none => .basic (create_basic_geojson bbox area_name city_name pois_data)
      | some geojson =>
        if jsonIsFC geojson then .llm geojson
        else .basic (create_basic_geojson bbox area_name city_name pois_data)

/-! ## POI GeoJSON and aggregation (generate_pois_geojson, main.py 303-410) -/

/-- A poi point feature of the POIs-only document. -/
structure PoisFeature where
  coordinates : List (Option ℚ)
  super_category : String
  display_name : String
  category : String
  name : String
  color : String
deriving DecidableEq

/-- One pie-chart entry. -/
structure ChartEntry where
  name : String
  value : ℕ
  color : String
deriving DecidableEq

/-- Counter dict initialized with every super-category at 0 (main.py 365). -/
def initCounts : List (String × ℕ) :=
  superCategories.map (fun sc => (sc.name, 0))

/-- Increment of one key of the counter dict; the key is always present since
classify returns a table name. -/
def incrCount : List (String × ℕ) → String → List (String × ℕ)
  | [], _ => []
  | (k, n) :: rest, key =>
    if k == key then (k, n + 1) :: rest else (k, n) :: incrCount rest key

/-- Inner loop body of main.py 369-398: classify, count, and append one
feature when both coordinates are truthy. -/
def poisStep (category : String) (acc : List PoisFeature × List (String × ℕ)) (poi : Poi) :
    List PoisFeature × List (String × ℕ) :=
  if truthy poi.lat && truthy poi.lon then
    let super_category := classify category
    let sc := scEntry super_category
    (acc.1 ++ [⟨[poi.lon, poi.lat], super_category, sc.display_name, category,
        (poi.tags.lookup "name").getD category, sc.color⟩],
     incrCount acc.2 super_category)
  else acc

/-- Outer loop body of main.py 368-398: process the POIs of one raw category. -/
def poisCatStep (acc : List PoisFeature × List (String × ℕ)) (cp : String × List Poi) :
    List PoisFeature × List (String × ℕ) :=
  cp.2.foldl (poisStep cp.1) acc

/-- Loop body of main.py 402-408: keep the nonzero counters as pie entries. -/
def pieStep (entries : List ChartEntry) (kn : String × ℕ) : List ChartEntry :=
  if kn.2 > 0 then
    entries ++ [⟨(scEntry kn.1).display_name, kn.2, (scEntry kn.1).color⟩]
  else entries

/-- Embedding of generate_pois_geojson (main.py 303-410): the POIs-only
feature collection, the constant super-category table, and the pie-chart data
built from the nonzero counters in table order. -/
def generate_pois_geojson (pois_data : CategorizedPois) :
    FeatureColl PoisFeature × List SuperCat × List ChartEntry :=
  let res := pois_data.foldl poisCatStep ([], initCounts)
  let pie := res.2.foldl pieStep []
  (⟨"FeatureCollection", res.1⟩, superCategories, pie)

/-! ## Request orchestration (analyze_area, main.py 414-508) -/

/-- Python exceptions relevant to analyze_area.  HTTPException subclasses
Exception, and its str form is "status: detail". -/
inductive PyExc where
  | http (status : ℕ) (detail : String)
  | valueError (msg : String)
  | jsonDecode (msg : String)
  | generic (msg : String)
deriving DecidableEq

/-- Python str(e) for the modelled exceptions. -/
def excStr : PyExc → String
  | .http s d => toString s ++ ": " ++ d
  | .valueError m => m
  | .jsonDecode m => m
  | .generic m => m

/-- Message text of a JSONDecodeError; the exact CPython wording is
environment detail no claim depends on. -/
def jsonDecodeErrStr : String := "Expecting value"

/-- Final response payload assembled at main.py 491-499. -/
structure FinalResults where
  summary : Json
  pie_chart_data : List ChartEntry
  ai_rating : Json
  geocode : GeocodeInfo
  bbox : List ℚ
  geojson : FeatureColl PoisFeature
  pois : CategorizedPois

/-- Outcome of one request: a success payload or an HTTP error response. -/
inductive HttpResult where
  | success (r : FinalResults)
  | failure (status : ℕ) (detail : String)

/-- Outcomes of the three outbound calls a request makes, supplied as inputs. -/
structure AnalyzeEnv where
  geocodeResp : Except String (List GeocodeHit)
  overpassResp : Except String (List OsmElement)
  llmResp : Except String String

/-- Body of the inner try of main.py 477-501: run the narrative call, extract
the first-brace-to-last-brace span, parse it; any raised exception is
returned as a value for the inner handler. -/
def analysisStep (llmResp : Except String String) : Except PyExc Json :=
  match llmResp with
  | .error e => .error (.generic e)
  | .ok text =>
    let json_start := strFind text lbraceChar
    let json_end := strRfind text rbraceChar + 1
    if json_start == -1 || json_end == -1 then
      .error (.valueError "No JSON found in the response")
    else
      match jsonParse (pySlice text json_start json_end) with
      | none => .error (.jsonDecode jsonDecodeErrStr)
      | some analysis_results => .ok analysis_results

/-- Body of the outer try of main.py 428-505, with every raise modelled as an
error value.  The inner handler rewraps any analysis failure as
HTTPException(502, ...). -/
def analyzeBody (env : AnalyzeEnv) : Except PyExc FinalResults :=
  match get_pois_overpass env.geocodeResp env.overpassResp with
  | .err msg => .error (.http 500 msg)
  | .ok categorized_pois geocode bbox =>
    let r := generate_pois_geojson categorized_pois
    match analysisStep env.llmResp with
    | .error e => .error (.http 502 ("LLM API Error: " ++ excStr e))
    | .ok analysis_results =>
      .ok ⟨jsonGetD analysis_results "summary" (.str ""), r.2.2,
        jsonGetD analysis_results "ai_rating" (.num 0), geocode, bbox, r.1, categorized_pois⟩

/-- Embedding of analyze_area (main.py 414-508).  The outer except Exception
catches every exception raised in the body, including the HTTPException
instances raised at main.py 435 and 505 (HTTPException subclasses Exception),
and rewraps them as HTTPException(500, "Unexpected error: " + str(e)). -/
def analyze_area (env : AnalyzeEnv) : HttpResult :=
  match analyzeBody env with
  | .ok r => .success r
  | .error e => .failure 500 ("Unexpected error: " ++ excStr e)

/-! ## Observers and spec-side definitions used to state the claims -/

/-- Whether a request outcome is a success payload. -/
def HttpResult.isSuccess : HttpResult → Bool
  | .success _ => true
  | .failure _ _ => false

/-- Categorized POIs carried by a successful outcome. -/
def HttpResult.poisOf : HttpResult → CategorizedPois
  | .success r => r.pois
  | .failure _ _ => []

/-- Whether a basic feature is the boundary feature. -/
def BasicFeature.isBoundaryB : BasicFeature → Bool
  | .boundary .. => true
  | .poi .. => false

/-- Whether a basic feature is a poi point feature. -/
def BasicFeature.isPoiB : BasicFeature → Bool
  | .boundary .. => false
  | .poi .. => true

/-- Point coordinates of a basic feature (empty for the boundary). -/
def BasicFeature.coordsOf : BasicFeature → List (Option ℚ)
  | .boundary .. => []
  | .poi cs _ _ _ => cs

/-- Number of entries in the features list of a synthesized document,
whichever path produced it. -/
def GeoDoc.featureCount : GeoDoc → ℕ
  | .llm j =>
    (match jsonGet j "features" with
     | some (.arr fs) => fs.length
     | _ => 0)
  | .basic g => g.features.length

/-- All (raw category, POI) pairs of a categorized-POI mapping, in traversal
order. -/
def allPoiPairs (d : CategorizedPois) : List (String × Poi) :=
  d.flatMap (fun cp => cp.2.map (fun p => (cp.1, p)))

/-- The (raw category, POI) pairs whose coordinates are both truthy, in
traversal order: exactly those the geometry and aggregation loops retain. -/
def retainedPois (d : CategorizedPois) : List (String × Poi) :=
  d.flatMap (fun cp =>
    (cp.2.filter (fun p => truthy p.lat && truthy p.lon)).map (fun p => (cp.1, p)))

/-- Number of retained POIs classified into a given super-category. -/
def countRetained (d : CategorizedPois) (scName : String) : ℕ :=
  ((retainedPois d).filter (fun cp => classify cp.1 == scName)).length

/-- Number of all POIs (truthy coordinates or not) classified into a given
super-category; this is the count the claim text speaks about. -/
def countAll (d : CategorizedPois) (scName : String) : ℕ :=
  ((allPoiPairs d).filter (fun cp => classify cp.1 == scName)).length

/-- Spec form of the pie data over the retained POIs: one entry per
super-category with a nonzero count, in declaration order. -/
def pieOfRetained (d : CategorizedPois) : List ChartEntry :=
  superCategories.filterMap (fun sc =>
    if countRetained d sc.name > 0 then
      some ⟨sc.display_name, countRetained d sc.name, sc.color⟩
    else none)

/-- Pie data as the claim states it, counting every POI of the input. -/
def pieOfAll (d : CategorizedPois) : List ChartEntry :=
  superCategories.filterMap (fun sc =>
    if countAll d sc.name > 0 then
      some ⟨sc.display_name, countAll d sc.name, sc.color⟩
    else none)

/-- A geocoder extent as the spec describes it, with named directional
fields. -/
structure Extent where
  south : ℚ
  north : ℚ
  west : ℚ
  east : ℚ

/-- The raw boundingbox list the geocoder reports for an extent, in Nominatim
order [south, north, west, east]. -/
def Extent.toRaw (x : Extent) : BboxRaw :=
  ⟨x.south, x.north, x.west, x.east⟩

/-! ## General lemmas -/

theorem classifyFrom_eq_find (category : String) (l : List SuperCat) :
    classifyFrom category l =
      ((l.find? (scMatches category)).map SuperCat.name).getD "other" := by
  induction l with
  | nil => rfl
  | cons sc rest ih =>
    by_cases h : scMatches category sc
    · simp [classifyFrom, h, List.find?_cons_of_pos]
    · simp [classifyFrom, h, List.find?_cons_of_neg, ih]

theorem truthy_false_of_degenerate (a b : Option ℚ)
    (h : a = none ∨ a = some 0 ∨ b = none ∨ b = some 0) :
    (truthy a && truthy b) = false := by
  rcases h with rfl | rfl | rfl | rfl <;> simp [truthy]

/-! ## Theorems for the claims -/

/-- C1: classification evaluates the ten super-categories in their fixed
declaration order (healthcare, education, shopping, food_drink, transport,
financial, leisure, office, community, other) and returns the first one whose
pattern keywords contain a substring of the lowercased raw category; with no
match it returns other. -/
theorem c1_classify_first_match_in_declaration_order :
    superCategories.map SuperCat.name =
      ["healthcare", "education", "shopping", "food_drink", "transport",
       "financial", "leisure", "office", "community", "other"] ∧
    ∀ category : String, classify category = classifySpec category := by
  refine ⟨rfl, fun category => ?_⟩
  rw [classify, classifyFrom_eq_find, classifySpec]
  cases superCategories.find? (scMatches category) <;> rfl

/-- C6: when the geocoder reports an extent (in Nominatim order south, north,
west, east), the bounding box is that extent reordered into [west, south,
east, north]; otherwise it is the fixed 0.009-degree square around the
resolved coordinate, so a bounding box is always produced. -/
theorem c6_bbox_reorder_and_square_fallback (x : Extent) (lat lon : ℚ) (name : String) :
    computeBbox ⟨lat, lon, some x.toRaw, name⟩ = [x.west, x.south, x.east, x.north] ∧
    computeBbox ⟨lat, lon, none, name⟩ =
      [lon - 9 / 1000, lat - 9 / 1000, lon + 9 / 1000, lat + 9 / 1000] :=
  ⟨rfl, rfl⟩

/-- C10: retention requires both coordinates to be truthy; an element or POI
whose latitude or longitude is missing or exactly 0.0 is dropped by the
extractor, by the POIs GeoJSON loop (no feature, no count), and by the basic
GeoJSON loop. -/
theorem c10_truthy_coordinate_filter :
    (∀ e : OsmElement,
       ((elementCoords e).1 = none ∨ (elementCoords e).1 = some 0 ∨
        (elementCoords e).2 = none ∨ (elementCoords e).2 = some 0) →
       elementContribution e = none) ∧
    (∀ (category : String) (acc : List PoisFeature × List (String × ℕ)) (poi : Poi),
       (poi.lat = none ∨ poi.lat = some 0 ∨ poi.lon = none ∨ poi.lon = some 0) →
       poisStep category acc poi = acc) ∧
    (∀ (category color : String) (fs : List BasicFeature) (poi : Poi),
       (poi.lat = none ∨ poi.lat = some 0 ∨ poi.lon = none ∨ poi.lon = some 0) →
       basicPoiStep category color fs poi = fs) := by
  refine ⟨fun e h => ?_, fun category acc poi h => ?_, fun category color fs poi h => ?_⟩
  · simp [elementContribution, truthy_false_of_degenerate _ _ h]
  · simp [poisStep, truthy_false_of_degenerate _ _ h]
  · simp [basicPoiStep, truthy_false_of_degenerate _ _ h]

/-- Closed witness for C10: a POI whose latitude is exactly 0.0 contributes
neither a feature nor a count. -/
theorem c10_truthy_coordinate_filter_witness :
    poisStep "cafe" ([], initCounts) ⟨some 0, some 37, [], "node"⟩ = ([], initCounts) :=
  c10_truthy_coordinate_filter.2.1 "cafe" ([], initCounts) ⟨some 0, some 37, [], "node"⟩
    (Or.inr (Or.inl rfl))

/-- C5: raw-category derivation follows first-match precedence over the tag
keys amenity, shop, leisure, healthcare, building, office, public_transport,
railway (with the stated prefixes); an element matching no key contributes
nothing, and no retained record carries an empty category. -/
theorem c5_raw_category_precedence :
    (∀ tags : List (String × String),
      (∀ v, tags.lookup "amenity" = some v → deriveCategory tags = some v) ∧
      (tags.lookup "amenity" = none →
        (∀ v, tags.lookup "shop" = some v → deriveCategory tags = some ("shop_" ++ v)) ∧
        (tags.lookup "shop" = none →
          (∀ v, tags.lookup "leisure" = some v → deriveCategory tags = some ("leisure_" ++ v)) ∧
          (tags.lookup "leisure" = none →
            (∀ v, tags.lookup "healthcare" = some v →
              deriveCategory tags = some ("healthcare_" ++ v)) ∧
            (tags.lookup "healthcare" = none →
              (∀ v, tags.lookup "building" = some v →
                deriveCategory tags = some ("building_" ++ v)) ∧
              (tags.lookup "building" = none →
                (∀ v, tags.lookup "office" = some v →
                  deriveCategory tags = some ("office_" ++ v)) ∧
                (tags.lookup "office" = none →
                  (∀ v, tags.lookup "public_transport" = some v →
                    deriveCategory tags = some "public_transport") ∧
                  (tags.lookup "public_transport" = none →
                    (∀ v, tags.lookup "railway" = some v →
                      deriveCategory tags = some ("railway_" ++ v)) ∧
                    (tags.lookup "railway" = none → deriveCategory tags = none))))))))) ∧
    (∀ e : OsmElement, deriveCategory e.tags = none → elementContribution e = none) ∧
    (∀ (e : OsmElement) (c : String) (p : Poi), elementContribution e = some (c, p) → c ≠ "") := by
  refine ⟨fun tags => ?_, fun e h => ?_, fun e c p h => ?_⟩
  · refine ⟨fun v hv => by simp [deriveCategory, hv], fun h1 => ?_⟩
    refine ⟨fun v hv => by simp [deriveCategory, h1, hv], fun h2 => ?_⟩
    refine ⟨fun v hv => by simp [deriveCategory, h1, h2, hv], fun h3 => ?_⟩
    refine ⟨fun v hv => by simp [deriveCategory, h1, h2, h3, hv], fun h4 => ?_⟩
    refine ⟨fun v hv => by simp [deriveCategory, h1, h2, h3, h4, hv], fun h5 => ?_⟩
    refine ⟨fun v hv => by simp [deriveCategory, h1, h2, h3, h4, h5, hv], fun h6 => ?_⟩
    refine ⟨fun v hv => by simp [deriveCategory, h1, h2, h3, h4, h5, h6, hv], fun h7 => ?_⟩
    exact ⟨fun v hv => by simp [deriveCategory, h1, h2, h3, h4, h5, h6, h7, hv],
      fun h8 => by simp [deriveCategory, h1, h2, h3, h4, h5, h6, h7, h8]⟩
  · simp only [elementContribution, h]
    split <;> rfl
  · intro hceq
    subst hceq
    simp only [elementContribution] at h
    split at h
    · split at h
      · split at h
        · exact absurd h (by simp)
        · rename_i category hmatch hne
          have : category = "" := by
            have := (Option.some.inj h)
            have hc := congrArg Prod.fst this
            simpa using hc
          rw [this] at hne
          simp at hne
      · exact absurd h (by simp)
    · exact absurd h (by simp)

/-- Closed witness for C5: a shop tag yields the prefixed raw category. -/
theorem c5_raw_category_precedence_witness :
    deriveCategory [("shop", "bakery")] = some "shop_bakery" :=
  ((c5_raw_category_precedence.1 [("shop", "bakery")]).2 (by decide)).1 "bakery" (by decide)

/-! ## Lemmas on the deterministic GeoJSON construction -/

/-- The poi features the basic construction adds, per category in order, with
the cycling palette color starting at a given index. -/
def basicFeaturesFrom : CategorizedPois → ℕ → List BasicFeature
  | [], _ => []
  | cp :: rest, idx =>
    (cp.2.filter (fun p => truthy p.lat && truthy p.lon)).map
      (fun p => .poi [p.lon, p.lat] cp.1 ((p.tags.lookup "name").getD cp.1)
        (basicColors.getD (idx % basicColors.length) "")) ++ basicFeaturesFrom rest (idx + 1)

theorem basicPoiStep_foldl (category color : String) (fs : List BasicFeature) (ps : List Poi) :
    ps.foldl (basicPoiStep category color) fs =
      fs ++ (ps.filter (fun p => truthy p.lat && truthy p.lon)).map
        (fun p => .poi [p.lon, p.lat] category ((p.tags.lookup "name").getD category) color) := by
  induction ps generalizing fs with
  | nil => simp
  | cons p rest ih =>
    by_cases h : (truthy p.lat && truthy p.lon) = true
    · simp [basicPoiStep, h, ih, List.filter_cons]
    · simp [basicPoiStep, h, ih, List.filter_cons]

theorem basicCatStep_foldl (d : CategorizedPois) (fs : List BasicFeature) (idx : ℕ) :
    (d.foldl basicCatStep (fs, idx)).1 = fs ++ basicFeaturesFrom d idx := by
  induction d generalizing fs idx with
  | nil => simp [basicFeaturesFrom]
  | cons cp rest ih =>
    show (rest.foldl basicCatStep (basicCatStep (fs, idx) cp)).1 = _
    rw [basicCatStep, basicPoiStep_foldl, ih, basicFeaturesFrom, List.append_assoc]

theorem basicFeaturesFrom_no_boundary (d : CategorizedPois) (idx : ℕ) :
    (basicFeaturesFrom d idx).filter BasicFeature.isBoundaryB = [] := by
  induction d generalizing idx with
  | nil => rfl
  | cons cp rest ih =>
    simp [basicFeaturesFrom, List.filter_append, ih, List.filter_map, Function.comp,
      BasicFeature.isBoundaryB]

theorem basicFeaturesFrom_poi_coords (d : CategorizedPois) (idx : ℕ) :
    ((basicFeaturesFrom d idx).filter BasicFeature.isPoiB).map BasicFeature.coordsOf =
      (retainedPois d).map (fun cp => [cp.2.lon, cp.2.lat]) := by
  induction d generalizing idx with
  | nil => rfl
  | cons cp rest ih =>
    simp [basicFeaturesFrom, retainedPois, List.filter_append, List.map_append, ih,
      List.filter_map, List.map_map, Function.comp, BasicFeature.isPoiB, BasicFeature.coordsOf]

/-- C3 (amended): on the deterministic path, every POI of the input whose
coordinates are both truthy appears as exactly one point feature, in order,
and exactly one boundary feature is present.  (The enrichment-assisted path
does not guarantee this; see the counterexample.) -/
theorem c3_deterministic_path_invariant (bbox : List ℚ) (area city : String)
    (d : CategorizedPois) :
    ((create_basic_geojson bbox area city d).features.filter BasicFeature.isBoundaryB).length
        = 1 ∧
    ((create_basic_geojson bbox area city d).features.filter BasicFeature.isPoiB).map
        BasicFeature.coordsOf =
      (retainedPois d).map (fun cp => [cp.2.lon, cp.2.lat]) := by
  unfold create_basic_geojson
  show ((d.foldl basicCatStep (_, 0)).1.filter _).length = 1 ∧
    ((d.foldl basicCatStep (_, 0)).1.filter _).map _ = _
  rw [basicCatStep_foldl]
  constructor
  · simp [List.filter_append, basicFeaturesFrom_no_boundary, BasicFeature.isBoundaryB]
  · simp [List.filter_append, basicFeaturesFrom_poi_coords, BasicFeature.isPoiB,
      BasicFeature.isBoundaryB, BasicFeature.coordsOf]

/-- C3 counterexample: an enrichment response that parses as a
FeatureCollection with an empty feature list is accepted as-is, so the output
document has zero features although the input holds one POI with valid
coordinates (and so no boundary feature either). -/
theorem c3_enrichment_path_counterexample :
    (retainedPois [("cafe", [⟨some 1, some 2, [], "node"⟩])]).length = 1 ∧
    GeoDoc.featureCount
      (generate_complete_geojson "Indiranagar" "Bangalore"
        [("cafe", [⟨some 1, some 2, [], "node"⟩])] [0, 0, 1, 1]
        (.ok "\x7b\"type\": \"FeatureCollection\", \"features\": []\x7d")) = 0 :=
  ⟨rfl, by decide⟩

/-- Closed witness for C3: one truthy-coordinate POI yields one point feature
and one boundary feature on the deterministic path. -/
theorem c3_deterministic_path_invariant_witness :
    ((create_basic_geojson [0, 0, 1, 1] "A" "B"
        [("cafe", [⟨some 3, some 4, [], "node"⟩])]).features.filter
      BasicFeature.isBoundaryB).length = 1 ∧
    ((create_basic_geojson [0, 0, 1, 1] "A" "B"
        [("cafe", [⟨some 3, some 4, [], "node"⟩])]).features.filter
      BasicFeature.isPoiB).map BasicFeature.coordsOf = [[some 4, some 3]] := by
  have h := c3_deterministic_path_invariant [0, 0, 1, 1] "A" "B"
    [("cafe", [⟨some 3, some 4, [], "node"⟩])]
  exact ⟨h.1, by rw [h.2]; decide⟩

theorem pySlice_zero (s : String) (a : Int) : pySlice s a 0 = "" := by
  simp [pySlice]

/-- C4: when the enrichment response has no brace pair, or the extracted span
fails to parse, or the parsed document is not a FeatureCollection with a
features key, synthesis returns exactly the deterministic-path document. -/
theorem c4_enrichment_fallback_on_invalid (area city : String) (d : CategorizedPois)
    (bbox : List ℚ) (text : String)
    (h : strFind text lbraceChar = -1 ∨ strRfind text rbraceChar = -1 ∨
      jsonParse (pySlice text (strFind text lbraceChar) (strRfind text rbraceChar + 1))
        = none ∨
      ∃ j, jsonParse (pySlice text (strFind text lbraceChar) (strRfind text rbraceChar + 1))
          = some j ∧ jsonIsFC j = false) :
    generate_complete_geojson area city d bbox (.ok text) =
      .basic (create_basic_geojson bbox area city d) := by
  simp only [generate_complete_geojson]
  rcases h with h | h | h | ⟨j, hj, hfc⟩
  · simp [h]
  · by_cases hf : strFind text lbraceChar = -1
    · simp [hf]
    · have hzero : (-1 : Int) + 1 = 0 := rfl
      have hslice : jsonParse (pySlice text (strFind text lbraceChar)
          (strRfind text rbraceChar + 1)) = none := by
        rw [h, hzero, pySlice_zero]
        rfl
      have hcond : (strFind text lbraceChar == -1 || (strRfind text rbraceChar + 1) == -1)
          = false := by
        rw [h, hzero]
        simp [hf]
      simp [hcond, hslice]
  · by_cases hc : (strFind text lbraceChar == -1 || (strRfind text rbraceChar + 1) == -1)
        = true
    · simp [hc]
    · simp only [Bool.not_eq_true] at hc
      simp [hc, h]
  · by_cases hc : (strFind text lbraceChar == -1 || (strRfind text rbraceChar + 1) == -1)
        = true
    · simp [hc]
    · simp only [Bool.not_eq_true] at hc
      simp [hc, hj, hfc]

/-- Closed witness for C4: a response with no braces at all falls back to the
deterministic document. -/
theorem c4_enrichment_fallback_on_invalid_witness :
    generate_complete_geojson "A" "B" [] [0, 0, 1, 1] (.ok "no json here") =
      .basic (create_basic_geojson [0, 0, 1, 1] "A" "B" []) :=
  c4_enrichment_fallback_on_invalid "A" "B" [] [0, 0, 1, 1] "no json here"
    (Or.inl (by decide))

/-! ## Lemmas on the aggregation loop -/

/-- The poi feature built for one retained POI of one raw category. -/
def mkPoisFeature (category : String) (p : Poi) : PoisFeature :=
  ⟨[p.lon, p.lat], classify category, (scEntry (classify category)).display_name, category,
    (p.tags.lookup "name").getD category, (scEntry (classify category)).color⟩

/-- The classified super-category names of the retained POIs, in order. -/
def retainedKeys (d : CategorizedPois) : List String :=
  (retainedPois d).map (fun cp => classify cp.1)

/-- The poi features the aggregation loop adds, per category in order. -/
def poisFeaturesFrom : CategorizedPois → List PoisFeature
  | [] => []
  | cp :: rest =>
    (cp.2.filter (fun p => truthy p.lat && truthy p.lon)).map (mkPoisFeature cp.1) ++
      poisFeaturesFrom rest

theorem poisStep_foldl (category : String) (fs : List PoisFeature)
    (counts : List (String × ℕ)) (ps : List Poi) :
    ps.foldl (poisStep category) (fs, counts) =
      (fs ++ (ps.filter (fun p => truthy p.lat && truthy p.lon)).map (mkPoisFeature category),
        ((ps.filter (fun p => truthy p.lat && truthy p.lon)).map
          (fun _ => classify category)).foldl incrCount counts) := by
  induction ps generalizing fs counts with
  | nil => simp
  | cons p rest ih =>
    rw [List.foldl_cons]
    by_cases h : (truthy p.lat && truthy p.lon) = true
    · rw [show poisStep category (fs, counts) p =
          (fs ++ [mkPoisFeature category p], incrCount counts (classify category)) from by
        simp [poisStep, h, mkPoisFeature]]
      rw [ih]
      simp [List.filter_cons, h]
    · rw [show poisStep category (fs, counts) p = (fs, counts) from by simp [poisStep, h]]
      rw [ih]
      simp [List.filter_cons, h]

theorem retainedKeys_cons (cp : String × List Poi) (rest : CategorizedPois) :
    retainedKeys (cp :: rest) =
      (cp.2.filter (fun p => truthy p.lat && truthy p.lon)).map (fun _ => classify cp.1) ++
        retainedKeys rest := by
  simp only [retainedKeys, retainedPois, List.flatMap_cons, List.map_append, List.map_map]
  rfl

theorem poisCatStep_foldl (d : CategorizedPois) (fs : List PoisFeature)
    (counts : List (String × ℕ)) :
    d.foldl poisCatStep (fs, counts) =
      (fs ++ poisFeaturesFrom d, (retainedKeys d).foldl incrCount counts) := by
  induction d generalizing fs counts with
  | nil => simp [poisFeaturesFrom, retainedKeys, retainedPois]
  | cons cp rest ih =>
    rw [List.foldl_cons]
    show rest.foldl poisCatStep (cp.2.foldl (poisStep cp.1) (fs, counts)) = _
    rw [poisStep_foldl, ih, retainedKeys_cons, poisFeaturesFrom, List.append_assoc,
      List.foldl_append]

theorem incrCount_map (scs : List SuperCat) (g : String → ℕ) (key : String)
    (hnd : (scs.map SuperCat.name).Nodup) :
    incrCount (scs.map fun sc => (sc.name, g sc.name)) key =
      scs.map fun sc => (sc.name, g sc.name + if sc.name == key then 1 else 0) := by
  induction scs with
  | nil => rfl
  | cons sc rest ih =>
    rw [List.map_cons, List.nodup_cons] at hnd
    rw [List.map_cons, List.map_cons]
    by_cases h : (sc.name == key) = true
    · rw [show incrCount ((sc.name, g sc.name) :: rest.map fun sc2 => (sc2.name, g sc2.name))
            key = (sc.name, g sc.name + 1) :: rest.map (fun sc2 => (sc2.name, g sc2.name))
          from by simp [incrCount, h]]
      congr 1
      · simp [h]
      · refine List.map_eq_map_iff.mpr (fun sc2 hm => ?_)
        have hne : (sc2.name == key) = false := by
          rcases Bool.eq_false_or_eq_true (sc2.name == key) with ht | hf
          · exfalso
            have h1 : sc.name = key := by simpa using h
            have h2 : sc2.name = key := by simpa using ht
            apply hnd.1
            rw [h1, ← h2]
            exact List.mem_map_of_mem SuperCat.name hm
          · exact hf
        simp [hne]
    · rw [show incrCount ((sc.name, g sc.name) :: rest.map fun sc2 => (sc2.name, g sc2.name))
            key = (sc.name, g sc.name) ::
              incrCount (rest.map fun sc2 => (sc2.name, g sc2.name)) key
          from by simp [incrCount, h]]
      rw [ih hnd.2]
      congr 1
      simp [h]

theorem foldl_incrCount_eq (keys : List String) (g : String → ℕ) :
    keys.foldl incrCount (superCategories.map fun sc => (sc.name, g sc.name)) =
      superCategories.map fun sc =>
        (sc.name, g sc.name + keys.countP (fun k => k == sc.name)) := by
  induction keys generalizing g with
  | nil => simp
  | cons k rest ih =>
    rw [List.foldl_cons, incrCount_map superCategories g k (by decide)]
    have ihg := ih (fun n => g n + if n == k then 1 else 0)
    simp only [] at ihg
    rw [ihg]
    refine List.map_eq_map_iff.mpr (fun sc _ => ?_)
    rw [List.countP_cons]
    by_cases hk : sc.name = k
    · subst hk
      simp only [beq_self_eq_true, if_true, Prod.mk.injEq]
      exact ⟨trivial, by omega⟩
    · have h1 : (sc.name == k) = false := by simpa using hk
      have h2 : (k == sc.name) = false := by simpa using (Ne.symm hk)
      simp only [h1, h2, if_false, Prod.mk.injEq]
      exact ⟨trivial, by omega⟩

theorem pieStep_foldl (kns : List (String × ℕ)) (acc : List ChartEntry) :
    kns.foldl pieStep acc =
      acc ++ kns.filterMap (fun kn =>
        if kn.2 > 0 then some ⟨(scEntry kn.1).display_name, kn.2, (scEntry kn.1).color⟩
        else none) := by
  induction kns generalizing acc with
  | nil => simp
  | cons kn rest ih =>
    rw [List.foldl_cons]
    by_cases h : kn.2 > 0
    · rw [show pieStep acc kn =
          acc ++ [⟨(scEntry kn.1).display_name, kn.2, (scEntry kn.1).color⟩] from by
        simp [pieStep, h]]
      rw [ih]
      simp [List.filterMap_cons, h]
    · rw [show pieStep acc kn = acc from by simp [pieStep, h]]
      rw [ih]
      simp [List.filterMap_cons, h]

theorem countP_retainedKeys (d : CategorizedPois) (n : String) :
    (retainedKeys d).countP (fun k => k == n) = countRetained d n := by
  rw [retainedKeys, countRetained, List.countP_map, ← List.countP_eq_length_filter]
  rfl

/-- C7 (amended): aggregation classifies every POI whose coordinates are both
truthy, counts per super-category, and emits exactly one chart entry per
super-category with a nonzero count, in the fixed declaration order. -/
theorem c7_pie_entries_in_declaration_order (d : CategorizedPois) :
    (generate_pois_geojson d).2.2 = pieOfRetained d := by
  show ((d.foldl poisCatStep ([], initCounts)).2.foldl pieStep []) = _
  rw [poisCatStep_foldl]
  show (((retainedKeys d).foldl incrCount initCounts).foldl pieStep []) = _
  have h := foldl_incrCount_eq (retainedKeys d) (fun _ => 0)
  simp only [] at h
  unfold initCounts
  rw [h, pieStep_foldl, List.filterMap_map]
  have hsce : ∀ sc2 ∈ superCategories, scEntry sc2.name = sc2 := by decide
  refine List.filterMap_congr (fun sc hm => ?_)
  simp only [Function.comp, hsce sc hm, countP_retainedKeys, Nat.zero_add]

/-- C7 counterexample: a POI whose coordinates are exactly (0, 0) is not
classified or counted at all, so the pie the claim prescribes (one
Food & Drink entry of count 1) differs from the pie the code emits (empty). -/
theorem c7_zero_coordinate_poi_counterexample :
    (generate_pois_geojson [("cafe", [⟨some 0, some 0, [], "node"⟩])]).2.2 = [] ∧
    pieOfAll [("cafe", [⟨some 0, some 0, [], "node"⟩])] =
      [⟨"Food & Drink", 1, "#FF8042"⟩] :=
  ⟨by decide, by decide⟩

/-! ## Theorems on the request orchestration -/

/-- Whether the narrative-analysis step succeeded. -/
def stepIsOk : Except PyExc Json → Bool
  | .ok _ => true
  | .error _ => false

/-- C2 (amended): a total Overpass failure is caught and only logged: the
extractor returns an ok result with an empty categorized-POI mapping together
with the geocode and bounding box, and the request then completes as a normal
analysis built on empty POI data whenever the narrative step succeeds. -/
theorem c2_overpass_failure_swallowed :
    (∀ (hit : GeocodeHit) (rest : List GeocodeHit) (e : String),
       get_pois_overpass (.ok (hit :: rest)) (.error e) =
         .ok [] ⟨hit.lat, hit.lon, hit.display_name⟩ (computeBbox hit)) ∧
    (∀ (hit : GeocodeHit) (rest : List GeocodeHit) (e text : String),
       stepIsOk (analysisStep (.ok text)) = true →
       (analyze_area ⟨.ok (hit :: rest), .error e, .ok text⟩).isSuccess = true ∧
       (analyze_area ⟨.ok (hit :: rest), .error e, .ok text⟩).poisOf = []) := by
  refine ⟨fun hit rest e => rfl, fun hit rest e text h => ?_⟩
  cases hstep : analysisStep (.ok text) with
  | error e2 => rw [hstep] at h; cases h
  | ok j =>
    unfold analyze_area analyzeBody
    simp only [hstep]
    exact ⟨rfl, rfl⟩

/-- Closed witness for C2: a concrete request whose Overpass call fails still
succeeds, with no categorized POIs. -/
theorem c2_overpass_failure_swallowed_witness :
    (analyze_area ⟨.ok [⟨10, 20, none, "W"⟩], .error "connection reset",
      .ok "\x7b\"summary\": \"fine\", \"ai_rating\": 60\x7d"⟩).isSuccess = true :=
  ((c2_overpass_failure_swallowed.2 ⟨10, 20, none, "W"⟩ [] "connection reset"
    "\x7b\"summary\": \"fine\", \"ai_rating\": 60\x7d") (by decide)).1

/-- C2 counterexample: geocoding succeeds, the Overpass query fails entirely,
the narrative call succeeds: the request completes successfully with an
analysis built on empty POI data, instead of failing with no summary. -/
theorem c2_overpass_failure_not_fatal_counterexample :
    (analyze_area ⟨.ok [⟨10, 20, none, "X"⟩], .error "timed out",
      .ok "\x7b\"summary\": \"ok\", \"ai_rating\": 50\x7d"⟩).isSuccess = true ∧
    (analyze_area ⟨.ok [⟨10, 20, none, "X"⟩], .error "timed out",
      .ok "\x7b\"summary\": \"ok\", \"ai_rating\": 50\x7d"⟩).poisOf = [] :=
  ⟨by decide, by decide⟩

/-- C8 (amended): an error on the optional geometry-enrichment call degrades
to the deterministic fallback inside generate_complete_geojson; but an error
or timeout on the narrative-summary call aborts the whole request, surfaced
as a 500 failure wrapping the 502 detail, with no empty-summary
substitution. -/
theorem c8_enrichment_error_behavior :
    (∀ (area city : String) (d : CategorizedPois) (bbox : List ℚ) (e : String),
       generate_complete_geojson area city d bbox (.error e) =
         .basic (create_basic_geojson bbox area city d)) ∧
    (∀ (hit : GeocodeHit) (rest : List GeocodeHit)
       (oResp : Except String (List OsmElement)) (e : String),
       analyze_area ⟨.ok (hit :: rest), oResp, .error e⟩ =
         .failure 500 ("Unexpected error: 502: LLM API Error: " ++ e)) :=
  ⟨fun _ _ _ _ _ => rfl, fun _ _ _ _ => rfl⟩

/-- C8 counterexample: with geocoding and Overpass succeeding, a failing
narrative enrichment call makes the whole request fail instead of completing
with an empty-but-valid summary. -/
theorem c8_narrative_error_aborts_counterexample :
    analyze_area ⟨.ok [⟨10, 20, none, "Y"⟩], .ok [], .error "timeout"⟩ =
      .failure 500 "Unexpected error: 502: LLM API Error: timeout" := rfl

/-- C9: a geocoding failure is surfaced with status 500 as the claim states,
but at the failing input (successful geocode and Overpass, failing narrative
enrichment call) the surfaced status is also 500, not 502: the
HTTPException(502) raised at main.py 505 is itself an Exception, so the outer
handler at main.py 506-508 catches it and rewraps it as a 500. -/
theorem c9_enrichment_failure_surfaces_500 :
    analyze_area ⟨.error "boom", .ok [], .ok "irrelevant"⟩ =
      .failure 500 "Unexpected error: 500: Geocoding failed: boom" ∧
    analyze_area ⟨.ok [⟨1297 / 100, 7759 / 100, none, "Bengaluru"⟩], .ok [],
        .error "LLM down"⟩ =
      .failure 500 "Unexpected error: 502: LLM API Error: LLM down" :=
  ⟨rfl, rfl⟩

end MapMind
